import Mathlib

/-
Verification of simplePerf.py (a minimal iperf-like throughput tool): a
shallow embedding of its server receive loop, client send loops, interval
reporting and final-summary computations, with theorems settling the
spec's claims about them.

Bytes are modelled as natural numbers (ASCII codes), a recv result as a
list of bytes, and real-valued time / statistics arithmetic as exact
rational arithmetic (the Python code uses floats; none of the claims is
about float rounding).
-/

set_option autoImplicit false

namespace SimplePerf

/-- Byte string of the 3-byte termination marker b'BYE' (ASCII). -/
def BYE : List Nat := [66, 89, 69]

/-- Byte string of the 8-byte acknowledgment b'ACK: BYE' (ASCII). -/
def ACK_BYE : List Nat := [65, 67, 75, 58, 32, 66, 89, 69]

/-- Server receive loop of handle_client (simplePerf.py lines 108-113):

      while True:
          data = conn.recv(1000)
          total_received += len(data)
          if data == b'BYE':
              conn.sendall(b'ACK: BYE')
              break

The sequence of recv results is modelled as a list of byte chunks; once
the list is exhausted, recv on a closed connection keeps returning the
empty byte string b'' (headD [] / tail on []).  The Python loop has no
termination guarantee, so the embedding is fuel-indexed: some total means
the loop broke out (after sending the ack) with that accumulated
total_received; none means it was still running when the fuel ran out. -/
def recvLoop : Nat → List (List Nat) → Nat → Option Nat
  | 0, _, _ => none
  | fuel + 1, chunks, total_received =>
    let data := chunks.headD []
    let total' := total_received + data.length
    if data = BYE then some total'
    else recvLoop fuel chunks.tail total'

/-- Unfolding of one iteration of the receive loop. -/
theorem recvLoop_succ (fuel : Nat) (chunks : List (List Nat)) (total : Nat) :
    recvLoop (fuel + 1) chunks total =
      if chunks.headD [] = BYE then some (total + (chunks.headD []).length)
      else recvLoop fuel chunks.tail (total + (chunks.headD []).length) := rfl

/-- Key computation for C1: feeding payload chunks (none of which is the
bare marker) followed by the marker terminates with the payload byte count
plus 3, because line 110 adds len(data) before line 111 compares data to
b'BYE'. -/
theorem recvLoop_payload_then_bye (payload : List (List Nat))
    (hp : ∀ c ∈ payload, c ≠ BYE) (total : Nat) :
    recvLoop (payload.length + 1) (payload ++ [BYE]) total
      = some (total + (payload.map List.length).sum + 3) := by
  induction payload generalizing total with
  | nil =>
    rw [List.nil_append, recvLoop_succ]
    simp [BYE]
  | cons c rest ih =>
    have hc : c ≠ BYE := hp c (by simp)
    have hrest : ∀ d ∈ rest, d ≠ BYE := fun d hd => hp d (by simp [hd])
    rw [List.length_cons, List.cons_append, recvLoop_succ]
    simp only [List.headD_cons, List.tail_cons, if_neg hc]
    rw [ih hrest]
    rw [Option.some_inj, List.map_cons, List.sum_cons]
    omega

/-- C1 counterexample: a session fed exactly k = 0 payload bytes followed
by the BYE marker reports total_received = 3, not 0 — the marker's own 3
bytes are accumulated (line 110) before the comparison (line 111). -/
theorem recvLoop_counts_marker :
    recvLoop 1 [BYE] 0 = some 3 ∧ (3 : Nat) ≠ 0 := by
  constructor
  · rfl
  · decide

/-- C1 (amended): a receive-mode session fed exactly k bytes of payload
(in chunks, none of which is itself the bare marker) followed by the
termination marker BYE reports bytesTransferred = k + 3: the 3 bytes of
the marker are included in the count. -/
theorem recvLoop_reports_payload_plus_marker (payload : List (List Nat))
    (hp : ∀ c ∈ payload, c ≠ BYE) :
    recvLoop (payload.length + 1) (payload ++ [BYE]) 0
      = some ((payload.map List.length).sum + 3) := by
  simpa using recvLoop_payload_then_bye payload hp 0

/-- Witness for C1: two payload chunks of 2 and 1 filler bytes (byte 48 =
'0'), then BYE: the session reports 3 + 3 = 6. -/
theorem recvLoop_reports_payload_plus_marker_concrete :
    recvLoop 3 [[48, 48], [48], BYE] 0 = some 6 := by
  have h := recvLoop_reports_payload_plus_marker [[48, 48], [48]] (by decide)
  simpa using h

/-- C2: when the peer closes the connection without sending BYE, every
subsequent recv returns the empty byte string b'' (the empty chunk
stream); the loop adds 0 each time, the comparison with b'BYE' never
succeeds, and the loop never breaks — for every fuel bound the loop is
still running.  The code spins forever instead of terminating with a
truncated-transfer report. -/
theorem recvLoop_spins_on_closed_peer (fuel total : Nat) :
    recvLoop fuel [] total = none := by
  induction fuel generalizing total with
  | zero => rfl
  | succ n ih =>
    simp only [recvLoop, List.headD_nil, List.tail_nil]
    rw [if_neg (by decide)]
    exact ih total

/-- Client byte-limited send loop (simplePerf.py lines 216-220):

      while total_sent < num_bytes:
          to_send = min(1000, num_bytes - total_sent)
          s.sendall(b'0' * to_send)
          total_sent += to_send

The function returns the list of chunk sizes sent, in order; total_sent
after the loop is the running accumulator plus the sum of the chunks. -/
def sendChunks (num_bytes : Nat) (total_sent : Nat) : List Nat :=
  if _h : total_sent < num_bytes then
    let to_send := min 1000 (num_bytes - total_sent)
    to_send :: sendChunks num_bytes (total_sent + to_send)
  else []
termination_by num_bytes - total_sent
decreasing_by
  omega

/-- Generalised invariant of the byte-limited send loop: starting from any
accumulator, the chunks are each positive and at most 1000 bytes, and they
sum to exactly the remaining byte budget. -/
theorem sendChunks_sum (num_bytes : Nat) :
    ∀ total_sent,
      (∀ c ∈ sendChunks num_bytes total_sent, 0 < c ∧ c ≤ 1000) ∧
      (sendChunks num_bytes total_sent).sum = num_bytes - total_sent := by
  have key : ∀ k total_sent, num_bytes - total_sent = k →
      (∀ c ∈ sendChunks num_bytes total_sent, 0 < c ∧ c ≤ 1000) ∧
      (sendChunks num_bytes total_sent).sum = num_bytes - total_sent := by
    intro k
    induction k using Nat.strong_induction_on with
    | _ k ih => ?_
    intro total_sent hk
    rw [sendChunks]
    by_cases h : total_sent < num_bytes
    · rw [dif_pos h]
      have hmin1 : 1 ≤ min 1000 (num_bytes - total_sent) := by omega
      have hmin2 : min 1000 (num_bytes - total_sent) ≤ 1000 := Nat.min_le_left _ _
      have hrec := ih (num_bytes - (total_sent + min 1000 (num_bytes - total_sent)))
        (by omega) (total_sent + min 1000 (num_bytes - total_sent)) rfl
      refine ⟨?_, ?_⟩
      · intro c hc
        rcases List.mem_cons.mp hc with hc | hc
        · subst hc; exact ⟨hmin1, hmin2⟩
        · exact hrec.1 c hc
      · rw [List.sum_cons, hrec.2]
        omega
    · rw [dif_neg h]
      simp
      omega
  intro total_sent
  exact key (num_bytes - total_sent) total_sent rfl

/-- C3: for every totalBytes, the byte-limited send loop sends chunks of
at most 1000 bytes each, and on completion the accumulated total_sent
(the sum of all chunks, started from 0) equals exactly totalBytes with no
overshoot; in particular this holds for every positive totalBytes. -/
theorem sendChunks_exact (num_bytes : Nat) :
    (∀ c ∈ sendChunks num_bytes 0, 0 < c ∧ c ≤ 1000) ∧
    (sendChunks num_bytes 0).sum = num_bytes := by
  have h := sendChunks_sum num_bytes 0
  exact ⟨h.1, by omega⟩

/-- Client duration-limited send loop (simplePerf.py lines 226-234):

      end_time = start_time + duration
      while time.time() < end_time:
          s.sendall(b'0' * 1000)
          total_sent += 1000

The wall clock is modelled as the finite sequence of time.time() readings
observed at the loop condition; the loop exits at the first reading that
reaches end_time.  Interval reporting inside the loop does not touch
total_sent, so it is omitted here (it is modelled separately). -/
def sendLoopDuration (clock : List ℚ) (end_time : ℚ) (total_sent : Nat) : Nat :=
  match clock with
  | [] => total_sent
  | t :: ts =>
    if t < end_time then sendLoopDuration ts end_time (total_sent + 1000)
    else total_sent

/-- Generalised invariant for C10: the duration loop only ever adds
exactly 1000 to the accumulator, so divisibility by 1000 is preserved. -/
theorem sendLoopDuration_dvd (clock : List ℚ) (end_time : ℚ) :
    ∀ total_sent, 1000 ∣ total_sent →
      1000 ∣ sendLoopDuration clock end_time total_sent := by
  induction clock with
  | nil => intro total h; exact h
  | cons t ts ih =>
    intro total h
    unfold sendLoopDuration
    by_cases hlt : t < end_time
    · rw [if_pos hlt]
      exact ih (total + 1000) (Nat.dvd_add h ⟨1, rfl⟩)
    · rw [if_neg hlt]
      exact h

/-- C10: every completed duration-limited send-mode session's total_sent
counter (which counts only the 1000-byte filler chunks, not the START
line or the BYE marker) is a whole multiple of 1000. -/
theorem sendLoopDuration_total_multiple_of_1000 (clock : List ℚ)
    (end_time : ℚ) : 1000 ∣ sendLoopDuration clock end_time 0 :=
  sendLoopDuration_dvd clock end_time 0 ⟨0, rfl⟩

/-- Display format for byte counts, from the -f (--format) command line
option (simplePerf.py line 48): one of B, KB, MB. -/
inductive Format
  | B
  | KB
  | MB
deriving DecidableEq

/-- Server final report of handle_client (simplePerf.py lines 115-129):

      bandwidth = total_received / elapsed_time
      if format == 'KB':
          total_received /= 1000
          bandwidth /= 1000
      elif format == 'MB':
          total_received /= 1000000
          bandwidth /= 1000000

Returns the (displayed byte count, displayed bandwidth) pair printed on
the final statistics line. -/
def serverFinalReport (format : Format) (total_received elapsed_time : ℚ) :
    ℚ × ℚ :=
  let bandwidth := total_received / elapsed_time
  match format with
  | .KB => (total_received / 1000, bandwidth / 1000)
  | .MB => (total_received / 1000000, bandwidth / 1000000)
  | .B => (total_received, bandwidth)

/-- Client final summary of client (simplePerf.py lines 241-255):

      elapsed_time = time.time() - start_time
      bandwidth = total_sent / elapsed_time
      if format == 'KB':
          total_sent /= 1000
          bandwidth /= 1000
      elif format == 'MB':
          total_sent /= 1000000
          bandwidth /= 1000000

Returns the (displayed byte count, displayed bandwidth) pair printed on
the final summary line (labelled MBps in the source). -/
def clientFinalSummary (format : Format) (total_sent elapsed_time : ℚ) :
    ℚ × ℚ :=
  let bandwidth := total_sent / elapsed_time
  match format with
  | .KB => (total_sent / 1000, bandwidth / 1000)
  | .MB => (total_sent / 1000000, bandwidth / 1000000)
  | .B => (total_sent, bandwidth)

/-- Divisor applied by the final-report paths (server lines 119-125 and
client lines 244-250): powers of 1000. -/
def finalUnitDivisor : Format → ℚ
  | .B => 1
  | .KB => 1000
  | .MB => 1000000

/-- Divisor applied to the byte delta by the interval-report path
(print_interval_stats lines 163-168): powers of 1024. -/
def intervalUnitDivisor : Format → ℚ
  | .B => 1
  | .KB => 1024
  | .MB => 1024 * 1024

/-- Interval statistics line produced by print_interval_stats
(simplePerf.py lines 154-171).  The fields windowStart and windowEnd are
the two endpoints of the printed time window (interval_elapsed_time and
elapsed_time, both relative to start_time); transfer and bandwidth are
the printed, format-converted values. -/
structure IntervalReport where
  connection_id : Nat
  client_ip : String
  client_port : Nat
  windowStart : ℚ
  windowEnd : ℚ
  transfer : ℚ
  bandwidth : ℚ
deriving DecidableEq

/-- Embedding of print_interval_stats (simplePerf.py lines 154-171):

      current_time = time.time()
      elapsed_time = current_time - start_time
      interval_elapsed_time = elapsed_time - interval
      interval_transfer = (total_sent - prev_total_sent)
      interval_bandwidth = (interval_transfer / (1024 * 1024)) / interval
      if format == 'KB':
          interval_transfer /= 1024
          interval_bandwidth *= 1024
      elif format == 'MB':
          interval_transfer /= (1024 * 1024)

The call to time.time() is modelled by the explicit current_time
argument. -/
def print_interval_stats (connection_id : Nat) (client_ip : String)
    (client_port : Nat) (start_time prev_total_sent : ℚ) (format : Format)
    (interval total_sent current_time : ℚ) : IntervalReport :=
  let elapsed_time := current_time - start_time
  let interval_elapsed_time := elapsed_time - interval
  let interval_transfer := total_sent - prev_total_sent
  let interval_bandwidth := interval_transfer / (1024 * 1024) / interval
  match format with
  | .KB => ⟨connection_id, client_ip, client_port, interval_elapsed_time,
      elapsed_time, interval_transfer / 1024, interval_bandwidth * 1024⟩
  | .MB => ⟨connection_id, client_ip, client_port, interval_elapsed_time,
      elapsed_time, interval_transfer / (1024 * 1024), interval_bandwidth⟩
  | .B => ⟨connection_id, client_ip, client_port, interval_elapsed_time,
      elapsed_time, interval_transfer, interval_bandwidth⟩

/-- Bandwidth formula the spec states for the final summary: average
bandwidth in Mbps, totalBytes*8 / elapsedSeconds / 1e6. -/
def specFinalBandwidthMbps (totalBytes elapsedSeconds : ℚ) : ℚ :=
  totalBytes * 8 / elapsedSeconds / 1000000

/-- C4 counterexample: a session that sent 1,000,000 bytes in 1 second.
The code's final bandwidth under format B is 1,000,000 (bytes/second), not
the 8 Mbps the spec formula gives, and the code's bandwidth under format
KB is 1,000, differing from the format-B value — so the reported rate is
not computed as totalBytes*8/elapsed/1e6 and is not independent of the
configured display unit. -/
theorem clientFinalSummary_bandwidth_not_spec :
    (clientFinalSummary .B 1000000 1).2 ≠ specFinalBandwidthMbps 1000000 1 ∧
    (clientFinalSummary .B 1000000 1).2 ≠ (clientFinalSummary .KB 1000000 1).2 := by
  constructor
  · show (1000000 : ℚ) / 1 ≠ 1000000 * 8 / 1 / 1000000
    norm_num
  · show (1000000 : ℚ) / 1 ≠ 1000000 / 1 / 1000
    norm_num

/-- C4 (amended): the client final summary's bandwidth is the raw byte
rate total_sent / elapsed divided by the same power-of-1000 divisor that
is applied to the displayed byte count — a bytes-per-display-unit-per-
second figure (labelled MBps), with no conversion to bits and a value
that depends on the configured display format. -/
theorem clientFinalSummary_bandwidth_uses_unit_divisor
    (format : Format) (total_sent elapsed_time : ℚ) :
    (clientFinalSummary format total_sent elapsed_time).2
        = total_sent / elapsed_time / finalUnitDivisor format ∧
    (clientFinalSummary format total_sent elapsed_time).1
        = total_sent / finalUnitDivisor format := by
  cases format <;>
    simp [clientFinalSummary, finalUnitDivisor]

/-- C7: for format KB the server-side final-report path divides the byte
count by 1000 while the client-side interval-report path divides the byte
delta by 1024 — the two reporting paths use different unit bases for the
same KB format, and the two divisors disagree. -/
theorem kb_divisor_mismatch (total_received elapsed_time : ℚ)
    (connection_id : Nat) (client_ip : String) (client_port : Nat)
    (start_time prev_total_sent interval total_sent current_time : ℚ) :
    (serverFinalReport .KB total_received elapsed_time).1
        = total_received / finalUnitDivisor .KB ∧
    finalUnitDivisor .KB = 1000 ∧
    (print_interval_stats connection_id client_ip client_port start_time
        prev_total_sent .KB interval total_sent current_time).transfer
        = (total_sent - prev_total_sent) / intervalUnitDivisor .KB ∧
    intervalUnitDivisor .KB = 1024 ∧
    intervalUnitDivisor .KB ≠ finalUnitDivisor .KB := by
  refine ⟨rfl, rfl, rfl, rfl, ?_⟩
  show (1024 : ℚ) ≠ 1000
  norm_num

/-- One interval check of the client send loop (simplePerf.py lines
221-224 and 231-234):

      if interval is not None and time.time() - last_print_time >= interval:
          print_interval_stats(connection_id, client_ip, client_port,
              start_time, prev_total_sent, format, interval, total_sent)
          last_print_time = time.time()
          prev_total_sent = total_sent

All three time.time() readings of the iteration are modelled by the one
argument now.  Returns the emitted report (if any) and the updated
(last_print_time, prev_total_sent) anchors. -/
def clientIntervalCheck (interval : Option ℚ) (format : Format)
    (connection_id : Nat) (client_ip : String) (client_port : Nat)
    (start_time last_print_time prev_total_sent total_sent now : ℚ) :
    Option IntervalReport × ℚ × ℚ :=
  match interval with
  | none => (none, last_print_time, prev_total_sent)
  | some i =>
    if now - last_print_time ≥ i then
      (some (print_interval_stats connection_id client_ip client_port
          start_time prev_total_sent format i total_sent now),
        now, total_sent)
    else (none, last_print_time, prev_total_sent)

/-- C8 counterexample: session with start_time 0, interval anchors
last_print_time = 0 and prev_total_sent = 0, interval 1 second, checked
at now = 2 with total_sent = 5000.  The emitted report's window start is
elapsed - interval = 1, not the lastIntervalTime anchor 0: the printed
window is [now - interval, now], not [lastIntervalTime, now]. -/
theorem clientIntervalCheck_window_not_from_anchor :
    ((clientIntervalCheck (some 1) .B 1 "127.0.0.1" 54321 0 0 0 5000 2).1.map
        IntervalReport.windowStart) = some 1 ∧
    (1 : ℚ) ≠ 0 := by
  constructor
  · have h : (2 : ℚ) - 0 ≥ (1 : ℚ) := by norm_num
    simp only [clientIntervalCheck, if_pos h, Option.map_some']
    simp only [print_interval_stats]
    norm_num
  · norm_num

/-- C8 (amended): whenever elapsed time since the last report reaches or
exceeds the interval, the session emits a report whose byte delta is
total_sent - prev_total_sent (scaled by the display divisor) and then
resets both interval anchors (last_print_time to now, prev_total_sent to
total_sent); but the report's printed window is
[elapsed - interval, elapsed] = [now - interval, now] relative to the
session start, not [lastIntervalTime, now]. -/
theorem clientIntervalCheck_emits_on_trigger (format : Format)
    (connection_id : Nat) (client_ip : String) (client_port : Nat)
    (start_time last_print_time prev_total_sent total_sent now i : ℚ)
    (h : now - last_print_time ≥ i) :
    clientIntervalCheck (some i) format connection_id client_ip client_port
        start_time last_print_time prev_total_sent total_sent now
      = (some (print_interval_stats connection_id client_ip client_port
            start_time prev_total_sent format i total_sent now),
          now, total_sent) ∧
    (print_interval_stats connection_id client_ip client_port start_time
        prev_total_sent format i total_sent now).windowEnd
      = now - start_time ∧
    (print_interval_stats connection_id client_ip client_port start_time
        prev_total_sent format i total_sent now).windowStart
      = (now - start_time) - i ∧
    (print_interval_stats connection_id client_ip client_port start_time
        prev_total_sent format i total_sent now).transfer
      = (total_sent - prev_total_sent) / intervalUnitDivisor format := by
  refine ⟨?_, ?_, ?_, ?_⟩
  · simp [clientIntervalCheck, h]
  · cases format <;> rfl
  · cases format <;> rfl
  · cases format <;> simp [print_interval_stats, intervalUnitDivisor]

/-- Witness for C8 (amended) at concrete inputs: interval 1, anchors
(0, 0), now = 2, total_sent = 5000, format B. -/
theorem clientIntervalCheck_emits_on_trigger_concrete :
    clientIntervalCheck (some 1) .B 7 "10.0.0.2" 4321 0 0 0 5000 2
      = (some (print_interval_stats 7 "10.0.0.2" 4321 0 0 .B 1 5000 2),
          2, 5000) ∧
    (print_interval_stats 7 "10.0.0.2" 4321 0 0 .B 1 5000 2).windowEnd = 2 - 0 ∧
    (print_interval_stats 7 "10.0.0.2" 4321 0 0 .B 1 5000 2).windowStart
      = (2 - 0) - 1 ∧
    (print_interval_stats 7 "10.0.0.2" 4321 0 0 .B 1 5000 2).transfer
      = (5000 - 0) / intervalUnitDivisor .B :=
  clientIntervalCheck_emits_on_trigger .B 7 "10.0.0.2" 4321 0 0 0 5000 2 1
    (by norm_num)

/-- Process-wide mutable state of the module: the stray attribute set on
the reporting function at import time (simplePerf.py line 176):

      print_interval_stats.prev_total_sent = 0

The attribute is assigned once and never read anywhere in the module. -/
structure ProcessGlobals where
  print_interval_stats_prev_total_sent : ℚ
deriving DecidableEq

/-- Initial process state after module import (line 176 sets the
attribute to 0). -/
def initProcessGlobals : ProcessGlobals := ⟨0⟩

/-- Reporting call as executed inside the process: the process-wide
attribute is in scope, but the body of print_interval_stats (lines
154-171) reads only its eight parameters and never the attribute. -/
def print_interval_stats_in_process (_g : ProcessGlobals)
    (connection_id : Nat) (client_ip : String) (client_port : Nat)
    (start_time prev_total_sent : ℚ) (format : Format)
    (interval total_sent current_time : ℚ) : IntervalReport :=
  print_interval_stats connection_id client_ip client_port start_time
    prev_total_sent format interval total_sent current_time

/-- A session's sequence of interval reports over its iterations: obs is
the list of (now, total_sent) observations at successive interval checks,
and the session threads its own local anchors (last_print_time,
prev_total_sent), as in the client loop (lines 221-224 / 231-234). -/
def sessionIntervalReports (g : ProcessGlobals) (format : Format)
    (connection_id : Nat) (client_ip : String) (client_port : Nat)
    (start_time interval : ℚ) :
    List (ℚ × ℚ) → ℚ → ℚ → List IntervalReport
  | [], _, _ => []
  | (now, total_sent) :: obs, last_print_time, prev_total_sent =>
    if now - last_print_time ≥ interval then
      print_interval_stats_in_process g connection_id client_ip client_port
          start_time prev_total_sent format interval total_sent now ::
        sessionIntervalReports g format connection_id client_ip client_port
          start_time interval obs now total_sent
    else
      sessionIntervalReports g format connection_id client_ip client_port
        start_time interval obs last_print_time prev_total_sent

/-- C9: a session's interval reports are computed solely from the
session's own counters and observations: for any two process-global
states (in particular, the stray function attribute left at its initial
value by a run alone, versus mutated arbitrarily by sibling sessions),
the session's entire sequence of interval reports is identical.  This is
the two-run noninterference of interval statistics over sibling
activity. -/
theorem sessionIntervalReports_noninterference (g g' : ProcessGlobals)
    (format : Format) (connection_id : Nat) (client_ip : String)
    (client_port : Nat) (start_time interval : ℚ) (obs : List (ℚ × ℚ))
    (last_print_time prev_total_sent : ℚ) :
    sessionIntervalReports g format connection_id client_ip client_port
        start_time interval obs last_print_time prev_total_sent
      = sessionIntervalReports g' format connection_id client_ip client_port
        start_time interval obs last_print_time prev_total_sent := by
  induction obs generalizing last_print_time prev_total_sent with
  | nil => rfl
  | cons o obs ih =>
    obtain ⟨now, total_sent⟩ := o
    unfold sessionIntervalReports
    by_cases h : now - last_print_time ≥ interval
    · rw [if_pos h, if_pos h, ih]
      rfl
    · rw [if_neg h, if_neg h]
      exact ih _ _

/-- Outcome of a client session as observed by the orchestrator's
future.result() call (simplePerf.py lines 80-81): either the session
function returned normally (with or without having printed a final
summary), or an exception propagated out of it. -/
inductive SessionEnd
  | completed (summary : Option (ℚ × ℚ))
  | raised (message : String)
deriving DecidableEq

/-- Client teardown after the data loop (simplePerf.py lines 238-255):

      s.sendall(b'BYE')
      data = s.recv(1000)
      if data == b'ACK: BYE':
          ...compute and print the final summary...

ackData is the byte string returned by the recv call (the empty list when
the peer closed the socket).  There is no else branch, no raise, and no
try/except anywhere in the function — and no ProtocolError class exists
in the module — so when the acknowledgment is anything other than
b'ACK: BYE' the function body simply ends and the session returns
normally without a summary. -/
def clientTeardown (format : Format) (total_sent elapsed_time : ℚ)
    (ackData : List Nat) : SessionEnd :=
  if ackData = ACK_BYE then
    .completed (some (clientFinalSummary format total_sent elapsed_time))
  else
    .completed none

/-- C5 counterexample: a session whose acknowledgment read returns the
empty byte string (peer closed without sending ACK: BYE).  The session
does not fail with a ProtocolError: it completes normally, merely
skipping the final summary. -/
theorem clientTeardown_silent_on_bad_ack :
    clientTeardown .MB 1000 1 [] = SessionEnd.completed none ∧
    clientTeardown .MB 1000 1 [] ≠ SessionEnd.raised "ProtocolError" := by
  constructor
  · rfl
  · intro h
    rw [show clientTeardown .MB 1000 1 [] = SessionEnd.completed none from rfl] at h
    exact SessionEnd.noConfusion h

/-- C5 (amended): for every acknowledgment payload other than the exact 8
bytes ACK: BYE (socket closed, wrong payload), the session raises no
error at all: it completes normally with no final summary, so the
orchestrator's future.result() observes an ordinary completion, not a
failed connection, and sibling sessions are unaffected.  (A recv that
never returns — the timeout case — never reaches this code at all, the
socket having no timeout configured.) -/
theorem clientTeardown_completes_without_error (format : Format)
    (total_sent elapsed_time : ℚ) (ackData : List Nat)
    (h : ackData ≠ ACK_BYE) :
    clientTeardown format total_sent elapsed_time ackData
      = SessionEnd.completed none := by
  simp [clientTeardown, h]

/-- Witness for C5 (amended): an acknowledgment of the single wrong byte
66 yields a normal, summary-less completion. -/
theorem clientTeardown_completes_without_error_concrete :
    clientTeardown .MB 500 2 [66] = SessionEnd.completed none :=
  clientTeardown_completes_without_error .MB 500 2 [66] (by decide)

/-- Parsed command line arguments relevant to mode selection and the
transfer limits (simplePerf.py lines 45-57), after argparse validation:
num is the byte target from -n, time the duration from -t. -/
structure Args where
  server : Bool
  client : Bool
  num : Option Nat
  time : Option Nat
  connections : Nat
deriving DecidableEq

/-- Action main takes after inspecting the parsed arguments
(simplePerf.py lines 59-77): the two usage-error actions execute
print(...) followed by a plain return from main. -/
inductive MainAction
  | usageErrorNeitherMode
  | startServer
  | usageErrorBothLimits
  | startClient (num : Option Nat) (time : Option Nat)
deriving DecidableEq

/-- Mode-selection logic of main (simplePerf.py lines 59-77):

      if not args.server and not args.client:
          print('Error: you must run either in server or client mode.')
          return
      if args.server:
          server(...)
      elif args.client:
          if args.num is None and args.time is None:
              args.time = 25
          elif args.num is not None and args.time is not None:
              print('Error: you cannot use both --num and --time ...')
              return
          with ThreadPoolExecutor(...) ... -/
def mainAction (a : Args) : MainAction :=
  if !a.server && !a.client then .usageErrorNeitherMode
  else if a.server then .startServer
  else
    match a.num, a.time with
    | none, none => .startClient none (some 25)
    | some _, some _ => .usageErrorBothLimits
    | n, t => .startClient n t

/-- Whether the action prints a usage-error message (lines 61 and 72). -/
def actionPrintsUsageError : MainAction → Bool
  | .usageErrorNeitherMode => true
  | .usageErrorBothLimits => true
  | _ => false

/-- Whether the action goes on to open client connections (lines 76-77);
the usage-error actions return from main before any socket work. -/
def attemptsConnection : MainAction → Bool
  | .startClient _ _ => true
  | _ => false

/-- Process exit status resulting from each action of main: both
usage-error paths execute a bare `return` (lines 62 and 73) rather than
sys.exit, so the script runs to completion and the interpreter exits
with status 0 on every path that returns. -/
def actionExitCode : MainAction → Nat
  | .usageErrorNeitherMode => 0
  | .startServer => 0
  | .usageErrorBothLimits => 0
  | .startClient _ _ => 0

/-- C6 counterexample: with neither mode chosen, and likewise with both
a byte target and a duration in client mode, main prints a usage error
and returns — and the process exit status is 0, not non-zero as the
claim states. -/
theorem mainAction_usage_error_exit_status_zero :
    mainAction ⟨false, false, none, none, 1⟩
      = MainAction.usageErrorNeitherMode ∧
    actionExitCode (mainAction ⟨false, false, none, none, 1⟩) = 0 ∧
    mainAction ⟨false, true, some 1000, some 5, 1⟩
      = MainAction.usageErrorBothLimits ∧
    actionExitCode (mainAction ⟨false, true, some 1000, some 5, 1⟩) = 0 ∧
    attemptsConnection (mainAction ⟨false, true, some 1000, some 5, 1⟩)
      = false :=
  ⟨rfl, rfl, rfl, rfl, rfl⟩

/-- C6 (amended): if neither server mode nor client mode is chosen, or if
both a byte-count target and a duration are given in client mode, main
prints a usage error and returns without attempting any connection — but
the process exits with status 0, not a non-zero status. -/
theorem mainAction_usage_error_behavior (a : Args) :
    (a.server = false → a.client = false →
      mainAction a = .usageErrorNeitherMode ∧
      actionPrintsUsageError (mainAction a) = true ∧
      attemptsConnection (mainAction a) = false ∧
      actionExitCode (mainAction a) = 0) ∧
    (a.server = false → a.client = true →
      ∀ n t, a.num = some n → a.time = some t →
        mainAction a = .usageErrorBothLimits ∧
        actionPrintsUsageError (mainAction a) = true ∧
        attemptsConnection (mainAction a) = false ∧
        actionExitCode (mainAction a) = 0) := by
  obtain ⟨s, c, num, time, conns⟩ := a
  constructor
  · intro hs hc
    subst hs; subst hc
    exact ⟨rfl, rfl, rfl, rfl⟩
  · intro hs hc n t hn ht
    subst hs; subst hc; subst hn; subst ht
    exact ⟨rfl, rfl, rfl, rfl⟩

/-- Witness for C6 (amended) at concrete argument records: neither mode
chosen, and client mode with both -n 2000 and -t 10. -/
theorem mainAction_usage_error_behavior_concrete :
    (mainAction ⟨false, false, none, none, 1⟩
        = MainAction.usageErrorNeitherMode ∧
      actionPrintsUsageError (mainAction ⟨false, false, none, none, 1⟩)
        = true ∧
      attemptsConnection (mainAction ⟨false, false, none, none, 1⟩)
        = false ∧
      actionExitCode (mainAction ⟨false, false, none, none, 1⟩) = 0) ∧
    (mainAction ⟨false, true, some 2000, some 10, 1⟩
        = MainAction.usageErrorBothLimits ∧
      actionPrintsUsageError (mainAction ⟨false, true, some 2000, some 10, 1⟩)
        = true ∧
      attemptsConnection (mainAction ⟨false, true, some 2000, some 10, 1⟩)
        = false ∧
      actionExitCode (mainAction ⟨false, true, some 2000, some 10, 1⟩) = 0) :=
  ⟨(mainAction_usage_error_behavior ⟨false, false, none, none, 1⟩).1 rfl rfl,
    (mainAction_usage_error_behavior ⟨false, true, some 2000, some 10, 1⟩).2
      rfl rfl 2000 10 rfl rfl⟩

end SimplePerf
